import Mathlib

/-!
Verification of the chat message-fragment core
(`src/common/stores/chat/chat.fragments.ts`).

The source is a pure TypeScript module defining a three-level tagged-union
data model (Fragment → Part → Data Reference / Data Inline), factory
functions, type-guard predicates and a recursive deep-duplication
algorithm.  We embed it shallowly:

* Each tagged union becomes a Lean inductive whose constructors carry the
  variant's fields; optional fields become `Option`.
* The two impure capabilities the module consumes — the `agiId` identifier
  generator and `Date.now()` — are modelled by an explicit environment
  `Env` (an interpretation of the n-th generated token, and a fixed
  current time) together with a threaded `Nat` counter: every effectful
  call (an `agiId` invocation, or the allocation of a fresh JavaScript
  object by an object-spread) consumes one counter tick.
* JavaScript reference identity, which matters only for the arbitrary
  `object` payload of `_args_schema` and for the `meta` object of a `doc`
  part (everywhere else duplication allocates fresh objects whose fields
  are immutable scalars), is modelled by an explicit address: each
  `JsVal.obj` node and each `DMessageDocMeta` record carries a `Nat`
  address.  Two structures share a mutable object exactly when an address
  occurs in both; JavaScript deep-equality is identity-blind, so
  deep-equality is equality after erasing addresses.
-/

namespace ChatFragments

/-- Arbitrary JavaScript value, modelling the untyped `object` payload of
`_args_schema` (a JSON-Schema blob).  Every object node carries an
address modelling JavaScript reference identity; primitives are immutable
and carry none. -/
inductive JsVal where
  | prim (s : String)
  | obj (addr : Nat) (fields : List (String × JsVal))
deriving Repr

/-- The JavaScript shallow object-spread `{ ...v }`: a fresh top-level
object (fresh address) whose field values are the very same references.
On a primitive (impossible for a TS `object`, kept total) it is the
identity. -/
def jsShallowSpread (fresh : Nat) : JsVal → JsVal
  | .prim s => .prim s
  | .obj _ fields => .obj fresh fields

mutual

/-- All object addresses occurring in a value. -/
def jsAddrs : JsVal → List Nat
  | .prim _ => []
  | .obj a fields => a :: jsAddrsFields fields

def jsAddrsFields : List (String × JsVal) → List Nat
  | [] => []
  | (_, v) :: rest => jsAddrs v ++ jsAddrsFields rest

end

/-- Addresses strictly inside a value (everything below the root). -/
def jsInnerAddrs : JsVal → List Nat
  | .prim _ => []
  | .obj _ fields => jsAddrsFields fields

mutual

/-- Erase all addresses (set them to 0): the identity-blind view of a
value, i.e. what JavaScript deep-equality compares. -/
def jsErase : JsVal → JsVal
  | .prim s => .prim s
  | .obj _ fields => .obj 0 (jsEraseFields fields)

def jsEraseFields : List (String × JsVal) → List (String × JsVal)
  | [] => []
  | (k, v) :: rest => (k, jsErase v) :: jsEraseFields rest

end

/-- `DBlobAssetId` (opaque identifier into the external blob store). -/
def DBlobAssetId := String
deriving Repr, DecidableEq

/-- `DMessageFragmentId` — 8-byte fragment id, unique within a container. -/
def DMessageFragmentId := String
deriving Repr, DecidableEq

/-- `DMessageDocMimeType` — the closed enum of document mime types
(`application/vnd.agi.ego`, `application/vnd.agi.ocr`, `text/html`,
`text/markdown`, `text/plain`). -/
inductive DMessageDocMimeType where
  | appVndAgiEgo
  | appVndAgiOcr
  | textHtml
  | textMarkdown
  | textPlain
deriving Repr, DecidableEq

/-- `srcOcrFrom?: 'image' | 'pdf'` from `DMessageDocMeta`. -/
inductive DocOcrFrom where
  | image
  | pdf
deriving Repr, DecidableEq

/-- `DMessageDocMeta`.  All four source fields are optional.  The extra
`addr` field models the JavaScript identity of the meta object itself
(it is a mutable record passed around by reference). -/
structure DMessageDocMeta where
  addr : Nat
  codeLanguage : Option String
  srcFileName : Option String
  srcFileSize : Option Nat
  srcOcrFrom : Option DocOcrFrom
deriving Repr, DecidableEq

/-- `DMessageDataInline` — currently the single `idt: 'text'` variant. -/
inductive DMessageDataInline where
  | text (text : String) (mimeType : Option String)
deriving Repr, DecidableEq

/-- `DMessageDataRef` — `url` or `dblob` data reference. -/
inductive DMessageDataRef where
  | url (url : String)
  | dblob (dblobAssetId : String) (mimeType : String) (bytesSize : Nat)
deriving Repr, DecidableEq

/-- `variant?: 'gemini_auto_inline'` (single literal). -/
inductive GeminiVariant where
  | gemini_auto_inline
deriving Repr, DecidableEq

/-- `error?: boolean | string` on a tool-response part. -/
inductive BoolOrString where
  | bool (b : Bool)
  | str (s : String)
deriving Repr, DecidableEq

/-- `DMessageToolEnvironment = 'upstream' | 'server' | 'client'`. -/
inductive DMessageToolEnvironment where
  | upstream
  | server
  | client
deriving Repr, DecidableEq

/-- The `call` field of a tool-invocation part:
`DMessageToolInvocationFunctionCall | DMessageToolInvocationCodeExecution`.
`function_call` carries `name`, `args : string | null`, `_description?`
and `_args_schema?: object`; `code_execution` carries `variant?` and the
`arguments: { code, language? }` record. -/
inductive DMessageToolInvocationCall where
  | function_call (name : String) (args : Option String)
      (_description : Option String) (_args_schema : Option JsVal)
  | code_execution (variant : Option GeminiVariant) (code : String)
      (language : Option String)
deriving Repr

/-- The `response` field of a tool-response part:
`DMessageToolResponseFunctionCall | DMessageToolResponseCodeExecution`. -/
inductive DMessageToolResponseKind where
  | function_call (result : String) (_name : Option String)
  | code_execution (result : String) (_variant : Option GeminiVariant)
deriving Repr, DecidableEq

/-- Message Part (discriminator `pt`): the union of every Part variant of
the source (`doc`, `error`, `image_ref`, `text`, `tool_call`,
`tool_response`, `ph`, `_pt_sentinel`).  The source statically splits
this union into `DMessageContentFragment['part']` (no `doc`) and
`DMessageAttachmentFragment['part']` (`doc`, `image_ref`, sentinel);
here that split is expressed by the type-guard predicates. -/
inductive DMessagePart where
  | doc (type : DMessageDocMimeType) (data : DMessageDataInline)
      (ref : String) (meta : Option DMessageDocMeta)
  | error (error : String)
  | image_ref (dataRef : DMessageDataRef) (altText : Option String)
      (width : Option Nat) (height : Option Nat)
  | text (text : String)
  | tool_call (id : String) (call : DMessageToolInvocationCall)
  | tool_response (id : String) (response : DMessageToolResponseKind)
      (error : Option BoolOrString) (_environment : Option DMessageToolEnvironment)
  | ph (pText : String)
  | _pt_sentinel
deriving Repr

/-- Message Fragment (discriminator `ft`): `content`, `attachment`
(carrying `title`, `caption`, `created`) or the `_ft_sentinel`. -/
inductive DMessageFragment where
  | content (fId : String) (part : DMessagePart)
  | attachment (fId : String) (title : String) (caption : String)
      (created : Nat) (part : DMessagePart)
  | _ft_sentinel (fId : String)
deriving Repr

/-- The string value of a Part's `pt` discriminator field. -/
def ptName : DMessagePart → String
  | .doc .. => "doc"
  | .error .. => "error"
  | .image_ref .. => "image_ref"
  | .text .. => "text"
  | .tool_call .. => "tool_call"
  | .tool_response .. => "tool_response"
  | .ph .. => "ph"
  | ._pt_sentinel => "_pt_sentinel"

/-- The string value of a Fragment's `ft` discriminator field. -/
def ftName : DMessageFragment → String
  | .content .. => "content"
  | .attachment .. => "attachment"
  | ._ft_sentinel .. => "_ft_sentinel"

/-- The `fId` field of a fragment (present on every variant). -/
def fragFId : DMessageFragment → String
  | .content fId _ => fId
  | .attachment fId _ _ _ _ => fId
  | ._ft_sentinel fId => fId

/-- Environment supplying the module's two external capabilities:
`agiId` (the token the generator returns on its n-th effectful call, for
a given scope string) and the current-time source `Date.now()` (held
fixed over a run; no claim depends on the timestamp value). -/
structure Env where
  agiId : String → Nat → String
  now : Nat

/-! ## Type guards (source: `fragment.ft === '...'` / `part.pt === '...'`) -/

def isContentFragment (fragment : DMessageFragment) : Bool :=
  ftName fragment == "content"

def isAttachmentFragment (fragment : DMessageFragment) : Bool :=
  ftName fragment == "attachment"

def isContentOrAttachmentFragment (fragment : DMessageFragment) : Bool :=
  ftName fragment == "content" || ftName fragment == "attachment"

def isDocPart (part : DMessagePart) : Bool :=
  ptName part == "doc"

def isImageRefPart (part : DMessagePart) : Bool :=
  ptName part == "image_ref"

def isTextPart (part : DMessagePart) : Bool :=
  ptName part == "text"

/-! ## Parts creation -/

def createDMessageDocPart (type : DMessageDocMimeType) (data : DMessageDataInline)
    (ref : String) (meta : Option DMessageDocMeta) : DMessagePart :=
  .doc type data ref meta

def createDMessageErrorPart (error : String) : DMessagePart :=
  .error error

def createDMessageImageRefPart (dataRef : DMessageDataRef) (altText : Option String)
    (width : Option Nat) (height : Option Nat) : DMessagePart :=
  .image_ref dataRef altText width height

def createDMessageTextPart (text : String) : DMessagePart :=
  .text text

def createDMessageFunctionCallInvocationPart (id : String) (name : String)
    (args : Option String) (_description : Option String)
    (_args_schema : Option JsVal) : DMessagePart :=
  .tool_call id (.function_call name args _description _args_schema)

def createDMessageCodeExecutionInvocationPart (id : String) (code : String)
    (language : Option String) (variant : Option GeminiVariant) : DMessagePart :=
  .tool_call id (.code_execution variant code language)

def createDMessageFunctionCallResponsePart (id : String) (result : String)
    (_name : Option String) (error : Option BoolOrString)
    (_environment : Option DMessageToolEnvironment) : DMessagePart :=
  .tool_response id (.function_call result _name) error _environment

def createDMessageCodeExecutionResponsePart (id : String) (result : String)
    (_variant : Option GeminiVariant) (error : Option BoolOrString)
    (_environment : Option DMessageToolEnvironment) : DMessagePart :=
  .tool_response id (.code_execution result _variant) error _environment

def createDMetaPlaceholderPart (placeholderText : String) : DMessagePart :=
  .ph placeholderText

def createDMetaSentinelPart : DMessagePart :=
  ._pt_sentinel

/-! ## Data reference creation -/

def createDMessageDataInlineText (text : String) (mimeType : Option String) :
    DMessageDataInline :=
  .text text mimeType

def createDMessageDataRefUrl (url : String) : DMessageDataRef :=
  .url url

def createDMessageDataRefDBlob (dblobAssetId : String) (mimeType : String)
    (bytesSize : Nat) : DMessageDataRef :=
  .dblob dblobAssetId mimeType bytesSize

/-! ## Fragments creation

Each factory that calls `agiId` takes the environment and the effect
counter and returns the constructed fragment together with the advanced
counter. -/

def _createContentFragment (env : Env) (part : DMessagePart) (n : Nat) :
    DMessageFragment × Nat :=
  (.content (env.agiId "chat-dfragment" n) part, n + 1)

def createErrorContentFragment (env : Env) (error : String) (n : Nat) :
    DMessageFragment × Nat :=
  _createContentFragment env (createDMessageErrorPart error) n

def createImageContentFragment (env : Env) (dataRef : DMessageDataRef)
    (altText : Option String) (width : Option Nat) (height : Option Nat) (n : Nat) :
    DMessageFragment × Nat :=
  _createContentFragment env (createDMessageImageRefPart dataRef altText width height) n

def createPlaceholderMetaFragment (env : Env) (placeholderText : String) (n : Nat) :
    DMessageFragment × Nat :=
  _createContentFragment env (createDMetaPlaceholderPart placeholderText) n

def createTextContentFragment (env : Env) (text : String) (n : Nat) :
    DMessageFragment × Nat :=
  _createContentFragment env (createDMessageTextPart text) n

/-- `{ ...copyFragment, part: createDMessageTextPart(text) }`: the object
spread keeps every field of the source fragment (in particular `fId`) and
overrides `part`.  The source types `copyFragment` as a
`DMessageContentFragment`; on the other variants (unreachable under that
typing) the model returns the input unchanged. -/
def specialShallowReplaceTextContentFragment (copyFragment : DMessageFragment)
    (text : String) : DMessageFragment :=
  match copyFragment with
  | .content fId _ => .content fId (createDMessageTextPart text)
  | f => f

def _createAttachmentFragment (env : Env) (title : String) (caption : String)
    (part : DMessagePart) (n : Nat) : DMessageFragment × Nat :=
  (.attachment (env.agiId "chat-dfragment" n) title caption env.now part, n + 1)

def createDocAttachmentFragment (env : Env) (title : String) (caption : String)
    (type : DMessageDocMimeType) (data : DMessageDataInline) (ref : String)
    (meta : Option DMessageDocMeta) (n : Nat) : DMessageFragment × Nat :=
  _createAttachmentFragment env title caption (createDMessageDocPart type data ref meta) n

def createImageAttachmentFragment (env : Env) (title : String) (caption : String)
    (dataRef : DMessageDataRef) (imgAltText : Option String) (width : Option Nat)
    (height : Option Nat) (n : Nat) : DMessageFragment × Nat :=
  _createAttachmentFragment env title caption
    (createDMessageImageRefPart dataRef imgAltText width height) n

def _createSentinelFragment (env : Env) (n : Nat) : DMessageFragment × Nat :=
  (._ft_sentinel (env.agiId "chat-dfragment" n), n + 1)

/-! ## Duplication -/

def _duplicateInlineData : DMessageDataInline → DMessageDataInline
  | .text text mimeType => createDMessageDataInlineText text mimeType

def _duplicateDataReference : DMessageDataRef → DMessageDataRef
  | .url url => createDMessageDataRefUrl url
  | .dblob dblobAssetId mimeType bytesSize =>
      createDMessageDataRefDBlob dblobAssetId mimeType bytesSize

/-- `_duplicateObjectWarning` (a shallow-spread stand-in for deep copy,
logging a development-time warning; unused by the duplication paths). -/
def _duplicateObjectWarning (obj : Option JsVal) (n : Nat) : Option JsVal × Nat :=
  match obj with
  | none => (none, n)
  | some v => (some (jsShallowSpread n v), n + 1)

/-- `_duplicatePart`: dispatch on `pt`, reconstruct through the factories.
The `tool_call`/`function_call` branch copies `_args_schema` with the
JavaScript shallow spread `{ ...call._args_schema }`, allocating one fresh
object (one counter tick). -/
def _duplicatePart (part : DMessagePart) (n : Nat) : DMessagePart × Nat :=
  match part with
  | .doc type data ref meta =>
      (createDMessageDocPart type (_duplicateInlineData data) ref meta, n)
  | .error error => (createDMessageErrorPart error, n)
  | .image_ref dataRef altText width height =>
      (createDMessageImageRefPart (_duplicateDataReference dataRef) altText width height, n)
  | .ph pText => (createDMetaPlaceholderPart pText, n)
  | .text text => (createDMessageTextPart text, n)
  | .tool_call id call =>
      match call with
      | .function_call name args _description _args_schema =>
          match _args_schema with
          | some s =>
              (createDMessageFunctionCallInvocationPart id name args _description
                (some (jsShallowSpread n s)), n + 1)
          | none =>
              (createDMessageFunctionCallInvocationPart id name args _description none, n)
      | .code_execution variant code language =>
          (createDMessageCodeExecutionInvocationPart id code language variant, n)
  | .tool_response id response error _environment =>
      match response with
      | .function_call result _name =>
          (createDMessageFunctionCallResponsePart id result _name error _environment, n)
      | .code_execution result _variant =>
          (createDMessageCodeExecutionResponsePart id result _variant error _environment, n)
  | ._pt_sentinel => (createDMetaSentinelPart, n)

/-- `_duplicateFragment`: dispatch on `ft`; duplicate the part (the
argument, evaluated first), then re-run the matching factory. -/
def _duplicateFragment (env : Env) (fragment : DMessageFragment) (n : Nat) :
    DMessageFragment × Nat :=
  match fragment with
  | .content _fId part =>
      let pn := _duplicatePart part n
      _createContentFragment env pn.1 pn.2
  | .attachment _fId title caption _created part =>
      let pn := _duplicatePart part n
      _createAttachmentFragment env title caption pn.1 pn.2
  | ._ft_sentinel _fId => _createSentinelFragment env n

/-- `duplicateDMessageFragments`: `fragments.map(_duplicateFragment)`,
with the effect counter threaded left to right (the order in which
`Array.prototype.map` invokes the callback). -/
def duplicateDMessageFragments (env : Env) (fragments : List DMessageFragment)
    (n : Nat) : List DMessageFragment × Nat :=
  match fragments with
  | [] => ([], n)
  | f :: rest =>
      let dn := _duplicateFragment env f n
      let rn := duplicateDMessageFragments env rest dn.2
      (dn.1 :: rn.1, rn.2)

/-- The single-quote character, used in the unsupported-conversion
message `Conversion of (quote)pt(quote) is not supported yet.` -/
def sQuote : String := String.singleton (Char.ofNat 39)

/-- `specialContentPartToDocAttachmentFragment`: the two `if` guards of
the source (`isTextPart`, then `isImageRefPart`) become the first two
match arms; every other part falls to the `'Error'` fallback, whose text
interpolates the part's `pt` tag (`ptName`). -/
def specialContentPartToDocAttachmentFragment (env : Env) (title : String)
    (caption : String) (contentPart : DMessagePart) (ref : String)
    (docMeta : Option DMessageDocMeta) (n : Nat) : DMessageFragment × Nat :=
  match contentPart with
  | .text t =>
      createDocAttachmentFragment env title caption .textPlain
        (createDMessageDataInlineText t (some "text/plain")) ref docMeta n
  | .image_ref dataRef altText width height =>
      createImageAttachmentFragment env title caption
        (_duplicateDataReference dataRef) altText width height n
  | p =>
      createDocAttachmentFragment env "Error" "Content to Attachment" .textPlain
        (createDMessageDataInlineText
          ("Conversion of " ++ sQuote ++ ptName p ++ sQuote ++ " is not supported yet.")
          (some "text/plain")) ref docMeta n

/-! ## Stripping identity: the view compared by JavaScript deep-equality
after removing `fId` (and `created`, for attachments).

JavaScript deep-equality is blind to object identity, so the model's
addresses are erased as well. -/

def stripMeta : Option DMessageDocMeta → Option DMessageDocMeta
  | none => none
  | some m => some { m with addr := 0 }

def stripCall : DMessageToolInvocationCall → DMessageToolInvocationCall
  | .function_call name args _description (some s) =>
      .function_call name args _description (some (jsErase s))
  | c => c

/-- Erase object identity inside a part (the `meta` object and the
`_args_schema` blob are the only identity-bearing payloads). -/
def stripPart : DMessagePart → DMessagePart
  | .doc type data ref meta => .doc type data ref (stripMeta meta)
  | .tool_call id call => .tool_call id (stripCall call)
  | p => p

/-- Remove `fId` (and `created`, for attachments) and erase object
identity: two fragments are JavaScript-deep-equal modulo identity fields
iff their `stripIdentity` views are equal. -/
def stripIdentity : DMessageFragment → DMessageFragment
  | .content _ part => .content "" (stripPart part)
  | .attachment _ title caption _ part => .attachment "" title caption 0 (stripPart part)
  | ._ft_sentinel _ => ._ft_sentinel ""

/-! ## Address collection: the mutable objects reachable from a fragment.

An address occurring in both an original and its duplicate means the two
structures reference the same mutable JavaScript object, so a mutation
through one is observable through the other. -/

def metaAddrs : Option DMessageDocMeta → List Nat
  | none => []
  | some m => [m.addr]

def schemaAddrs : Option JsVal → List Nat
  | none => []
  | some s => jsAddrs s

def schemaInnerAddrs : Option JsVal → List Nat
  | none => []
  | some s => jsInnerAddrs s

/-- Addresses of all mutable objects reachable from a part: the `doc`
part's `meta` object and a function-call invocation's `_args_schema`
tree.  All other payloads are immutable scalars or are modelled without
identity because duplication always reconstructs them freshly. -/
def partAddrs : DMessagePart → List Nat
  | .doc _ _ _ meta => metaAddrs meta
  | .tool_call _ (.function_call _ _ _ schema) => schemaAddrs schema
  | _ => []

/-- The addresses a duplicate is permitted to share with its original:
the `doc` `meta` object (passed through by reference) and the objects
strictly inside `_args_schema` (the shallow spread re-creates only the
root). -/
def partSharedOk : DMessagePart → List Nat
  | .doc _ _ _ meta => metaAddrs meta
  | .tool_call _ (.function_call _ _ _ schema) => schemaInnerAddrs schema
  | _ => []

def fragAddrs : DMessageFragment → List Nat
  | .content _ p => partAddrs p
  | .attachment _ _ _ _ p => partAddrs p
  | ._ft_sentinel _ => []

def fragSharedOk : DMessageFragment → List Nat
  | .content _ p => partSharedOk p
  | .attachment _ _ _ _ p => partSharedOk p
  | ._ft_sentinel _ => []

def fragsAddrs : List DMessageFragment → List Nat
  | [] => []
  | f :: rest => fragAddrs f ++ fragsAddrs rest

def fragsSharedOk : List DMessageFragment → List Nat
  | [] => []
  | f :: rest => fragSharedOk f ++ fragsSharedOk rest

/-! ## Field accessors -/

/-- The `title` field (present only on attachment fragments). -/
def fragTitle : DMessageFragment → Option String
  | .attachment _ title _ _ _ => some title
  | _ => none

/-- The `caption` field (present only on attachment fragments). -/
def fragCaption : DMessageFragment → Option String
  | .attachment _ _ caption _ _ => some caption
  | _ => none

/-! ## Concrete inputs used by witnesses and counterexamples -/

/-- An environment whose generator always returns `"fresh"` and whose
clock reads 0. -/
def env0 : Env := { agiId := fun _ _ => "fresh", now := 0 }

/-- A JSON-Schema blob with a nested object: root at address 1, nested
`properties` object at address 2. -/
def schemaC : JsVal := .obj 1 [("properties", .obj 2 [])]

/-- A content fragment holding a function-call tool invocation whose
`_args_schema` is `schemaC`. -/
def fragToolC : DMessageFragment :=
  .content "fa" (.tool_call "t1" (.function_call "fn" none none (some schemaC)))

/-- An attachment fragment holding a `doc` part whose `meta` object has
address 7. -/
def fragDocC : DMessageFragment :=
  .attachment "fb" "file.txt" "pasted" 0
    (.doc .textPlain (.text "d" none) "r" (some ⟨7, none, none, none, none⟩))

/-- A two-fragment sequence exercising both aliasing channels. -/
def seqC : List DMessageFragment := [fragToolC, fragDocC]

/-- A content fragment with identifier `"old"`. -/
def fragOld : DMessageFragment := .content "old" (createDMessageTextPart "hi")

/-- A concrete `tool_call` content part (code-execution flavour). -/
def pToolC : DMessagePart :=
  .tool_call "t9" (.code_execution none "print(1)" (some "python"))

/-! ## Helper lemmas -/

theorem jsErase_shallowSpread (fresh : Nat) (v : JsVal) :
    jsErase (jsShallowSpread fresh v) = jsErase v := by
  cases v <;> simp [jsShallowSpread, jsErase]

theorem duplicateInlineData_eq (d : DMessageDataInline) : _duplicateInlineData d = d := by
  cases d
  rfl

theorem stripPart_duplicatePart (p : DMessagePart) (n : Nat) :
    stripPart (_duplicatePart p n).1 = stripPart p := by
  cases p with
  | doc type data ref meta =>
      cases data
      rfl
  | error e => rfl
  | image_ref dataRef altText width height => cases dataRef <;> rfl
  | text t => rfl
  | ph pText => rfl
  | _pt_sentinel => rfl
  | tool_call id call =>
      cases call with
      | function_call name args _description _args_schema =>
          cases _args_schema with
          | none => rfl
          | some s =>
              simp [_duplicatePart, createDMessageFunctionCallInvocationPart, stripPart,
                stripCall, jsErase_shallowSpread]
      | code_execution variant code language => rfl
  | tool_response id response error _environment => cases response <;> rfl

theorem stripIdentity_duplicateFragment (env : Env) (f : DMessageFragment) (n : Nat) :
    stripIdentity (_duplicateFragment env f n).1 = stripIdentity f := by
  cases f with
  | content fId part =>
      simp [_duplicateFragment, _createContentFragment, stripIdentity,
        stripPart_duplicatePart]
  | attachment fId title caption created part =>
      simp [_duplicateFragment, _createAttachmentFragment, stripIdentity,
        stripPart_duplicatePart]
  | _ft_sentinel fId => rfl

theorem duplicate_strip (env : Env) (seq : List DMessageFragment) (n : Nat) :
    ((duplicateDMessageFragments env seq n).1).map stripIdentity = seq.map stripIdentity := by
  induction seq generalizing n with
  | nil => rfl
  | cons f rest ih =>
      simp [duplicateDMessageFragments, stripIdentity_duplicateFragment, ih]

theorem fragFId_duplicateFragment (env : Env) (f : DMessageFragment) (n : Nat) :
    ∃ m, fragFId (_duplicateFragment env f n).1 = env.agiId "chat-dfragment" m := by
  cases f with
  | content fId part => exact ⟨(_duplicatePart part n).2, rfl⟩
  | attachment fId title caption created part => exact ⟨(_duplicatePart part n).2, rfl⟩
  | _ft_sentinel fId => exact ⟨n, rfl⟩

/-! ## Claims -/

/-- C1.  For every Fragment `F`, the duplicate produced by
`duplicateDMessageFragments [F]` is deep-equal to `F` once `fId` (and
`created`, for attachments) is stripped: the `ft`/`pt` tags, all payload
values, and for attachments the original `title` and `caption` survive
duplication unchanged.  (`stripIdentity` removes exactly the `fId` and
`created` fields and erases object identity, which JavaScript
deep-equality cannot observe.) -/
theorem duplicate_preserves_stripped_value (env : Env) (F : DMessageFragment) (n : Nat) :
    ((duplicateDMessageFragments env [F] n).1).map stripIdentity = [stripIdentity F] := by
  simpa using duplicate_strip env [F] n

/-- C2.  Assuming the injected identifier generator returns, on every
call, a token distinct from the source fragment's `fId`, the duplicate's
`fId` differs from the source's: duplication never reuses the source
identifier. -/
theorem duplicate_generates_fresh_fId (env : Env) (F : DMessageFragment) (n : Nat)
    (hfresh : ∀ m, env.agiId "chat-dfragment" m ≠ fragFId F)
    (D : DMessageFragment) (hD : (duplicateDMessageFragments env [F] n).1 = [D]) :
    fragFId D ≠ fragFId F := by
  have hdup : (duplicateDMessageFragments env [F] n).1 = [(_duplicateFragment env F n).1] := by
    simp [duplicateDMessageFragments]
  rw [hdup] at hD
  obtain ⟨m, hm⟩ := fragFId_duplicateFragment env F n
  cases hD
  rw [hm]
  exact hfresh m

/-- Witness for C2 at a concrete input: `env0` always generates
`"fresh"`, and the fragment `fragOld` carries the id `"old"`. -/
theorem duplicate_generates_fresh_fId_witness :
    fragFId (DMessageFragment.content "fresh" (createDMessageTextPart "hi")) ≠ fragFId fragOld :=
  duplicate_generates_fresh_fId env0 fragOld 0
    (fun _ => show ("fresh" : String) ≠ "old" by decide) _ rfl

/-- C4.  Duplicating any (possibly empty) ordered sequence returns a
sequence of exactly the same length, whose i-th element is the duplicate
of the i-th input fragment (at the effect-counter value reached after the
first i fragments).  The input list is passed by value and never
modified — the embedding is purely functional, as is the source
(`Array.prototype.map` does not mutate its receiver). -/
theorem duplicate_length_and_pointwise (env : Env) (seq : List DMessageFragment) (n : Nat) :
    ((duplicateDMessageFragments env seq n).1).length = seq.length ∧
    ∀ i : Nat, ∃ m, ((duplicateDMessageFragments env seq n).1)[i]? =
      (seq[i]?).map (fun f => (_duplicateFragment env f m).1) := by
  induction seq generalizing n with
  | nil => exact ⟨rfl, fun i => ⟨0, by simp [duplicateDMessageFragments]⟩⟩
  | cons f rest ih =>
      refine ⟨?_, ?_⟩
      · simpa [duplicateDMessageFragments] using (ih (_duplicateFragment env f n).2).1
      · intro i
        cases i with
        | zero => exact ⟨n, by simp [duplicateDMessageFragments]⟩
        | succ j =>
            obtain ⟨m, hm⟩ := (ih (_duplicateFragment env f n).2).2 j
            exact ⟨m, by simpa [duplicateDMessageFragments] using hm⟩

/-- C6.  Duplication is idempotent with respect to semantic content:
duplicating a duplicate yields the same `stripIdentity` view as a single
duplication, which in turn equals the input's view, whatever environments
and counters the two runs use. -/
theorem duplicate_idempotent_modulo_identity (env₁ env₂ : Env) (n₁ n₂ : Nat)
    (seq : List DMessageFragment) :
    ((duplicateDMessageFragments env₂ ((duplicateDMessageFragments env₁ seq n₁).1) n₂).1).map
        stripIdentity
      = ((duplicateDMessageFragments env₁ seq n₁).1).map stripIdentity ∧
    ((duplicateDMessageFragments env₁ seq n₁).1).map stripIdentity = seq.map stripIdentity :=
  ⟨duplicate_strip env₂ ((duplicateDMessageFragments env₁ seq n₁).1) n₂,
   duplicate_strip env₁ seq n₁⟩

/-- C7.  `_duplicateDataReference` is value-equal to its input: a `url`
reference's string and a `dblob` reference's asset identifier, mime type
and byte size are copied by value, unchanged (the duplicate keeps
pointing at the same externally owned blob). -/
theorem duplicateDataReference_value_equal (ref : DMessageDataRef) :
    _duplicateDataReference ref = ref := by
  cases ref <;> rfl

/-- C8.  The duplication dispatches are exhaustive: `_duplicateFragment`
handles every Fragment tag (`content`, `attachment`, `_ft_sentinel`) and
`_duplicatePart` every Part tag (`doc`, `error`, `image_ref`, `ph`,
`text`, `tool_call`, `tool_response`, `_pt_sentinel`), each case
reconstructing a defined value carrying the same tag; both functions (and
every factory and type guard of the embedding) are total Lean functions,
so duplication returns a defined Fragment for every well-typed input. -/
theorem duplication_exhaustive_tag_preserving (env : Env) (n : Nat) :
    (∀ f : DMessageFragment, ftName (_duplicateFragment env f n).1 = ftName f) ∧
    (∀ p : DMessagePart, ptName (_duplicatePart p n).1 = ptName p) := by
  constructor
  · intro f
    cases f <;> rfl
  · intro p
    cases p with
    | tool_call id call =>
        cases call with
        | function_call name args _description _args_schema => cases _args_schema <;> rfl
        | code_execution variant code language => rfl
    | tool_response id response error _environment => cases response <;> rfl
    | _ => rfl

theorem msg_contains_tag (pt : String) :
    ∃ a b, "Conversion of " ++ sQuote ++ pt ++ sQuote ++ " is not supported yet."
      = a ++ pt ++ b :=
  ⟨"Conversion of " ++ sQuote, sQuote ++ " is not supported yet.",
    String.append_assoc _ _ _⟩

theorem msg_contains_not_supported (pt : String) :
    ∃ c d, "Conversion of " ++ sQuote ++ pt ++ sQuote ++ " is not supported yet."
      = c ++ "not supported" ++ d := by
  refine ⟨"Conversion of " ++ sQuote ++ pt ++ sQuote ++ " is ", " yet.", ?_⟩
  rw [show (" is not supported yet." : String) = (" is " ++ "not supported") ++ " yet."
    from by decide]
  simp only [← String.append_assoc]

/-- C5.  `specialContentPartToDocAttachmentFragment` is total over every
legal content Part (`isDocPart p = false`; the source restricts the input
type to `DMessageContentFragment['part']`, which excludes `doc`): a
`text` Part becomes a `text/plain` doc attachment, an `image_ref` Part
becomes an image attachment carrying a duplicated data reference, and any
other Part kind degrades to a `doc` Part whose text contains the
offending `pt` tag name and the words `not supported`. -/
theorem specialContentPartToDocAttachmentFragment_total
    (env : Env) (title caption ref : String) (docMeta : Option DMessageDocMeta)
    (n : Nat) (p : DMessagePart) (hdoc : isDocPart p = false) :
    (∀ t, p = createDMessageTextPart t →
      specialContentPartToDocAttachmentFragment env title caption p ref docMeta n
        = createDocAttachmentFragment env title caption .textPlain
            (createDMessageDataInlineText t (some "text/plain")) ref docMeta n) ∧
    (∀ dataRef altText width height,
      p = createDMessageImageRefPart dataRef altText width height →
      specialContentPartToDocAttachmentFragment env title caption p ref docMeta n
        = createImageAttachmentFragment env title caption
            (_duplicateDataReference dataRef) altText width height n) ∧
    (isTextPart p = false → isImageRefPart p = false →
      ∃ fid msg,
        (specialContentPartToDocAttachmentFragment env title caption p ref docMeta n).1
          = DMessageFragment.attachment fid "Error" "Content to Attachment" env.now
              (createDMessageDocPart .textPlain
                (createDMessageDataInlineText msg (some "text/plain")) ref docMeta) ∧
        (∃ a b, msg = a ++ ptName p ++ b) ∧
        (∃ c d, msg = c ++ "not supported" ++ d)) := by
  refine ⟨?_, ?_, ?_⟩
  · intro t ht
    subst ht
    rfl
  · intro dataRef altText width height h
    subst h
    rfl
  · intro htext himg
    cases p with
    | doc type data ref meta => simp [isDocPart, ptName] at hdoc
    | text t => simp [isTextPart, ptName] at htext
    | image_ref dataRef altText width height => simp [isImageRefPart, ptName] at himg
    | error e =>
        exact ⟨_, _, rfl, msg_contains_tag _, msg_contains_not_supported _⟩
    | tool_call id call =>
        exact ⟨_, _, rfl, msg_contains_tag _, msg_contains_not_supported _⟩
    | tool_response id response error _environment =>
        exact ⟨_, _, rfl, msg_contains_tag _, msg_contains_not_supported _⟩
    | ph pText =>
        exact ⟨_, _, rfl, msg_contains_tag _, msg_contains_not_supported _⟩
    | _pt_sentinel =>
        exact ⟨_, _, rfl, msg_contains_tag _, msg_contains_not_supported _⟩

/-- Witness for C5 at `pToolC`, a `tool_call` content part (Scenario 4):
the fallback doc's text contains `"tool_call"` and `"not supported"`. -/
theorem specialContentPartToDocAttachmentFragment_total_witness :
    ∃ fid msg,
      (specialContentPartToDocAttachmentFragment env0 "T" "C" pToolC "R" none 0).1
        = DMessageFragment.attachment fid "Error" "Content to Attachment" env0.now
            (createDMessageDocPart .textPlain
              (createDMessageDataInlineText msg (some "text/plain")) "R" none) ∧
      (∃ a b, msg = a ++ ptName pToolC ++ b) ∧
      (∃ c d, msg = c ++ "not supported" ++ d) :=
  (specialContentPartToDocAttachmentFragment_total env0 "T" "C" "R" none 0 pToolC
    (by decide)).2.2 (by decide) (by decide)

/-- C9.  The unsupported-kind fallback of
`specialContentPartToDocAttachmentFragment` discards the caller-supplied
`title` and `caption`, returning the fixed title `Error` and caption
`Content to Attachment`; and the `image_ref` branch discards the `ref`
and `docMeta` arguments entirely (the result does not depend on them). -/
theorem conversion_fallback_fixed_title_caption (env : Env) (title caption : String) (n : Nat) :
    (∀ (p : DMessagePart) (ref : String) (docMeta : Option DMessageDocMeta),
      isTextPart p = false → isImageRefPart p = false → isDocPart p = false →
      fragTitle (specialContentPartToDocAttachmentFragment env title caption p ref docMeta n).1
          = some "Error" ∧
      fragCaption (specialContentPartToDocAttachmentFragment env title caption p ref docMeta n).1
          = some "Content to Attachment") ∧
    (∀ dataRef altText width height ref₁ docMeta₁ ref₂ docMeta₂,
      specialContentPartToDocAttachmentFragment env title caption
          (createDMessageImageRefPart dataRef altText width height) ref₁ docMeta₁ n
        = specialContentPartToDocAttachmentFragment env title caption
            (createDMessageImageRefPart dataRef altText width height) ref₂ docMeta₂ n) := by
  constructor
  · intro p ref docMeta htext himg hdoc
    cases p with
    | doc type data ref meta => simp [isDocPart, ptName] at hdoc
    | text t => simp [isTextPart, ptName] at htext
    | image_ref dataRef altText width height => simp [isImageRefPart, ptName] at himg
    | error e => exact ⟨rfl, rfl⟩
    | tool_call id call => exact ⟨rfl, rfl⟩
    | tool_response id response error _environment => exact ⟨rfl, rfl⟩
    | ph pText => exact ⟨rfl, rfl⟩
    | _pt_sentinel => exact ⟨rfl, rfl⟩
  · intro dataRef altText width height ref₁ docMeta₁ ref₂ docMeta₂
    rfl

/-- Witness for C9: an `error` part yields the fixed title/caption, and
two `image_ref` calls differing only in `ref`/`docMeta` coincide. -/
theorem conversion_fallback_fixed_title_caption_witness :
    (fragTitle (specialContentPartToDocAttachmentFragment env0 "T" "C"
        (createDMessageErrorPart "boom") "r" none 0).1 = some "Error" ∧
     fragCaption (specialContentPartToDocAttachmentFragment env0 "T" "C"
        (createDMessageErrorPart "boom") "r" none 0).1 = some "Content to Attachment") ∧
    specialContentPartToDocAttachmentFragment env0 "T" "C"
        (createDMessageImageRefPart (.dblob "a" "image/png" 10) none none none)
        "r1" none 0
      = specialContentPartToDocAttachmentFragment env0 "T" "C"
          (createDMessageImageRefPart (.dblob "a" "image/png" 10) none none none)
          "r2" (some ⟨3, none, none, none, none⟩) 0 :=
  ⟨(conversion_fallback_fixed_title_caption env0 "T" "C" 0).1
      (createDMessageErrorPart "boom") "r" none (by decide) (by decide) (by decide),
   (conversion_fallback_fixed_title_caption env0 "T" "C" 0).2
      (.dblob "a" "image/png" 10) none none none "r1" none "r2"
      (some ⟨3, none, none, none, none⟩)⟩

/-- C10.  `specialShallowReplaceTextContentFragment` keeps the source
content fragment's `fId` — no fresh identifier is generated (the function
consumes neither the generator nor the clock) — and replaces only the
`part` field with a new text Part carrying the given text; a content
fragment has no other fields. -/
theorem shallow_replace_keeps_fId (f : DMessageFragment) (text : String)
    (h : isContentFragment f = true) :
    ∃ fid p, f = DMessageFragment.content fid p ∧
      specialShallowReplaceTextContentFragment f text
        = DMessageFragment.content fid (createDMessageTextPart text) := by
  cases f with
  | content fId part => exact ⟨fId, part, rfl, rfl⟩
  | attachment fId title caption created part => simp [isContentFragment, ftName] at h
  | _ft_sentinel fId => simp [isContentFragment, ftName] at h

/-- Witness for C10 at the concrete fragment `fragOld`. -/
theorem shallow_replace_keeps_fId_witness :
    ∃ fid p, fragOld = DMessageFragment.content fid p ∧
      specialShallowReplaceTextContentFragment fragOld "new"
        = DMessageFragment.content fid (createDMessageTextPart "new") :=
  shallow_replace_keeps_fId fragOld "new" (by decide)

theorem duplicatePart_counter_le (p : DMessagePart) (n : Nat) :
    n ≤ (_duplicatePart p n).2 := by
  cases p with
  | tool_call id call =>
      cases call with
      | function_call name args _description _args_schema =>
          cases _args_schema with
          | none => exact Nat.le_refl n
          | some s => exact Nat.le_succ n
      | code_execution variant code language => exact Nat.le_refl n
  | tool_response id response error _environment =>
      cases response with
      | function_call result _name => exact Nat.le_refl n
      | code_execution result _variant => exact Nat.le_refl n
  | _ => exact Nat.le_refl n

theorem duplicateFragment_counter_le (env : Env) (f : DMessageFragment) (n : Nat) :
    n ≤ (_duplicateFragment env f n).2 := by
  cases f with
  | content fId part =>
      exact Nat.le_trans (duplicatePart_counter_le part n) (Nat.le_succ _)
  | attachment fId title caption created part =>
      exact Nat.le_trans (duplicatePart_counter_le part n) (Nat.le_succ _)
  | _ft_sentinel fId => exact Nat.le_succ n

/-- Every mutable-object address reachable from a duplicated part is
either an address the duplicate is allowed to share with the original
(the `meta` object, or an object strictly inside `_args_schema`) or a
freshly allocated one (at or above the incoming counter). -/
theorem partAddrs_duplicatePart (p : DMessagePart) (n : Nat) :
    ∀ a ∈ partAddrs (_duplicatePart p n).1,
      a ∈ partSharedOk p ∨ n ≤ a := by
  cases p with
  | doc type data ref meta =>
      intro a ha
      left
      simpa [_duplicatePart, createDMessageDocPart, partAddrs, partSharedOk] using ha
  | error e => intro a ha; simp [_duplicatePart, createDMessageErrorPart, partAddrs] at ha
  | image_ref dataRef altText width height =>
      intro a ha
      simp [_duplicatePart, createDMessageImageRefPart, partAddrs] at ha
  | text t => intro a ha; simp [_duplicatePart, createDMessageTextPart, partAddrs] at ha
  | ph pText => intro a ha; simp [_duplicatePart, createDMetaPlaceholderPart, partAddrs] at ha
  | _pt_sentinel => intro a ha; simp [_duplicatePart, createDMetaSentinelPart, partAddrs] at ha
  | tool_call id call =>
      cases call with
      | function_call name args _description _args_schema =>
          cases _args_schema with
          | none =>
              intro a ha
              simp [_duplicatePart, createDMessageFunctionCallInvocationPart, partAddrs,
                schemaAddrs] at ha
          | some s =>
              cases s with
              | prim s' =>
                  intro a ha
                  simp [_duplicatePart, createDMessageFunctionCallInvocationPart, partAddrs,
                    schemaAddrs, jsShallowSpread, jsAddrs] at ha
              | obj r fields =>
                  intro a ha
                  simp only [_duplicatePart, createDMessageFunctionCallInvocationPart, partAddrs,
                    schemaAddrs, jsShallowSpread, jsAddrs, List.mem_cons] at ha
                  rcases ha with h | h
                  · right
                    exact Nat.le_of_eq h.symm
                  · left
                    simpa [partSharedOk, schemaInnerAddrs, jsInnerAddrs] using h
      | code_execution variant code language =>
          intro a ha
          simp [_duplicatePart, createDMessageCodeExecutionInvocationPart, partAddrs] at ha
  | tool_response id response error _environment =>
      cases response with
      | function_call result _name =>
          intro a ha
          simp [_duplicatePart, createDMessageFunctionCallResponsePart, partAddrs] at ha
      | code_execution result _variant =>
          intro a ha
          simp [_duplicatePart, createDMessageCodeExecutionResponsePart, partAddrs] at ha

theorem fragAddrs_duplicateFragment (env : Env) (f : DMessageFragment) (n : Nat) :
    ∀ a ∈ fragAddrs (_duplicateFragment env f n).1,
      a ∈ fragSharedOk f ∨ n ≤ a := by
  cases f with
  | content fId part =>
      intro a ha
      have hp := partAddrs_duplicatePart part n a (by
        simpa [_duplicateFragment, _createContentFragment, fragAddrs] using ha)
      rcases hp with h | h
      · left
        simpa [fragSharedOk] using h
      · right
        exact h
  | attachment fId title caption created part =>
      intro a ha
      have hp := partAddrs_duplicatePart part n a (by
        simpa [_duplicateFragment, _createAttachmentFragment, fragAddrs] using ha)
      rcases hp with h | h
      · left
        simpa [fragSharedOk] using h
      · right
        exact h
  | _ft_sentinel fId =>
      intro a ha
      simp [_duplicateFragment, _createSentinelFragment, fragAddrs] at ha

theorem fragsAddrs_duplicate (env : Env) (l : List DMessageFragment) (n : Nat) :
    ∀ a ∈ fragsAddrs (duplicateDMessageFragments env l n).1,
      a ∈ fragsSharedOk l ∨ n ≤ a := by
  induction l generalizing n with
  | nil => intro a ha; simp [duplicateDMessageFragments, fragsAddrs] at ha
  | cons f rest ih =>
      intro a ha
      simp only [duplicateDMessageFragments, fragsAddrs, List.mem_append] at ha
      rcases ha with ha | ha
      · rcases fragAddrs_duplicateFragment env f n a ha with h | h
        · left
          simp only [fragsSharedOk, List.mem_append]
          exact Or.inl h
        · right
          exact h
      · rcases ih (_duplicateFragment env f n).2 a ha with h | h
        · left
          simp only [fragsSharedOk, List.mem_append]
          exact Or.inr h
        · right
          exact Nat.le_trans (duplicateFragment_counter_le env f n) h

/-- C3 counterexample.  Duplicating the concrete two-fragment sequence
`seqC` (a `tool_call` whose `_args_schema` nests an object at address 2,
and a `doc` attachment whose `meta` object has address 7) yields a result
that still references both of those mutable objects: addresses 2 and 7
occur in the duplicate and in the original.  Neither is a `dblob`
data-reference triple, so the duplicate does share mutable sub-structure
with the input beyond the blob case — mutating the nested schema object
(or the meta object) through the duplicate is observable through the
original.  The claim's "no aliasing at any nesting depth" is refuted: the
source copies `_args_schema` with a top-level-only spread
`{ ...call._args_schema }` and passes `part.meta` through by reference. -/
theorem duplicate_aliasing_counterexample :
    (2 ∈ fragsAddrs (duplicateDMessageFragments env0 seqC 100).1 ∧ 2 ∈ fragsAddrs seqC) ∧
    (7 ∈ fragsAddrs (duplicateDMessageFragments env0 seqC 100).1 ∧ 7 ∈ fragsAddrs seqC) := by
  decide

/-- C3 amended.  Provided every address generated during duplication is
fresh (all input addresses lie below the counter), the only mutable
objects a duplicate can share with its input are the allowed ones:
the `doc` part `meta` objects (passed through by reference) and the
objects strictly inside a `tool_call`'s `_args_schema` (the shallow
spread re-creates only the root object).  The `dblob` asset
identifier/mime/size triple carries no object address at all: it is
copied by value and keeps designating the same externally owned blob. -/
theorem duplicate_sharing_only_meta_and_schema_inner (env : Env)
    (seq : List DMessageFragment) (n : Nat)
    (hfresh : ∀ a ∈ fragsAddrs seq, a < n) :
    ∀ a, a ∈ fragsAddrs (duplicateDMessageFragments env seq n).1 →
      a ∈ fragsAddrs seq → a ∈ fragsSharedOk seq := by
  intro a hdup horig
  rcases fragsAddrs_duplicate env seq n a hdup with h | h
  · exact h
  · have := hfresh a horig
    omega

/-- Witness for the amended C3 at the concrete sequence `seqC`: the
shared address 2 is indeed inside the allowed set (it lies strictly
inside the original `_args_schema`). -/
theorem duplicate_sharing_only_meta_and_schema_inner_witness :
    2 ∈ fragsSharedOk seqC :=
  duplicate_sharing_only_meta_and_schema_inner env0 seqC 100 (by decide) 2
    (by decide) (by decide)

end ChatFragments
